import Mathlib

/-!
Verification of the incremental bookmark-synchronization engine of the
`twitter_bookmark_manager` repository.

The Python sources are shallowly embedded:
* `app/twitter_client.py` — `parse_bookmarks_response` / `_extract_tweet_data`
  over a `Json` value type, with Python's dynamic-typing behaviour
  (`dict.get` defaults, truthiness, exceptions on attribute errors) made
  explicit via `Except`.
* `app/models.py` — the `tweets` and `sync_state` tables as lists of rows,
  the `id = 1` singleton CHECK constraint, and `init_db`.
* `app/main.py` — `_process_tweet_data`, `_handle_sync_error` and the
  `sync_bookmarks` fetch/normalize/upsert loop, with the unbounded
  `while True:` loop given explicit fuel, the upstream API abstracted as a
  `fetch : Json → Except String Json` function, and `datetime.now()`
  abstracted as a stream `times : Nat → String` of timestamp strings.
-/

/-- A JSON document, as produced by `response.json()` / consumed by
`json.dumps`.  Numbers are restricted to integers (no claim touches float
values). -/
inductive Json where
  | null
  | bool (b : Bool)
  | num (n : Int)
  | str (s : String)
  | arr (xs : List Json)
  | obj (fields : List (String × Json))

namespace Json

/-- Python `d.get(k, default)`.  Returns the stored value (even when it is
`None`) when the key is present, the default when absent, and raises
(`.error`) when the receiver is not a dict — mirroring Python's
`AttributeError` on `.get` for non-dict values. -/
def pyGetD : Json → String → Json → Except Unit Json
  | .obj fs, k, d =>
    match fs.lookup k with
    | some v => .ok v
    | none => .ok d
  | _, _, _ => .error ()

/-- Python `d.get(k)` (default `None`). -/
def pyGet (j : Json) (k : String) : Except Unit Json :=
  j.pyGetD k .null

/-- Python `for x in j`: lists iterate their elements; empty strings and
empty dicts iterate zero times; every other value either is not iterable or
yields strings on which the body's first `.get`/`.startswith` raises at once,
so before any state is mutated — both are modelled as raising here. -/
def pyIter : Json → Except Unit (List Json)
  | .arr xs => .ok xs
  | .str s => if s = "" then .ok [] else .error ()
  | .obj fs => if fs.isEmpty then .ok [] else .error ()
  | _ => .error ()

/-- Python truthiness of a JSON-shaped value. -/
def pyTruthy : Json → Bool
  | .null => false
  | .bool b => b
  | .num n => n != 0
  | .str s => s ≠ ""
  | .arr xs => !xs.isEmpty
  | .obj fs => !fs.isEmpty

/-- True exactly on Python `None` (used for `is None` checks). -/
def isNull : Json → Bool
  | .null => true
  | _ => false

mutual

/-- Python `==` between JSON-shaped values: structural equality.
(The numeric edge cases `1 == True`, `1 == 1.0` and the order-insensitivity
of dict equality are not modelled; every comparison reached by the claims is
between strings or against `None`.) -/
def pyEq : Json → Json → Bool
  | .null, .null => true
  | .bool a, .bool b => a == b
  | .num a, .num b => a == b
  | .str a, .str b => a == b
  | .arr a, .arr b => pyEqList a b
  | .obj a, .obj b => pyEqFields a b
  | _, _ => false

/-- Elementwise `pyEq` on lists. -/
def pyEqList : List Json → List Json → Bool
  | [], [] => true
  | x :: xs, y :: ys => pyEq x y && pyEqList xs ys
  | _, _ => false

/-- Elementwise `pyEq` on key/value lists. -/
def pyEqFields : List (String × Json) → List (String × Json) → Bool
  | [], [] => true
  | (k1, v1) :: xs, (k2, v2) :: ys => k1 == k2 && pyEq v1 v2 && pyEqFields xs ys
  | _, _ => false

end

mutual

/-- Python `repr` of a JSON-shaped value (used by `str` on containers). -/
def pyRepr : Json → String
  | .null => "None"
  | .bool true => "True"
  | .bool false => "False"
  | .num n => toString n
  | .str s => "'" ++ s ++ "'"
  | .arr xs => "[" ++ String.intercalate ", " (pyReprList xs) ++ "]"
  | .obj fs => "\x7b" ++ String.intercalate ", " (pyReprFields fs) ++ "\x7d"

/-- `repr` of each element of a list. -/
def pyReprList : List Json → List String
  | [] => []
  | x :: xs => pyRepr x :: pyReprList xs

/-- `repr` of each `'key': value` pair of a dict. -/
def pyReprFields : List (String × Json) → List String
  | [] => []
  | (k, v) :: xs => ("'" ++ k ++ "': " ++ pyRepr v) :: pyReprFields xs

end

/-- Python `str()` of a JSON-shaped value, as used by f-string interpolation
and the `str(cursor) == str(next_cursor)` loop check. -/
def pyStr : Json → String
  | .null => "None"
  | .bool true => "True"
  | .bool false => "False"
  | .num n => toString n
  | .str s => s
  | .arr xs => "[" ++ String.intercalate ", " (pyReprList xs) ++ "]"
  | .obj fs => "\x7b" ++ String.intercalate ", " (pyReprFields fs) ++ "\x7d"

/-- Escape of one character inside a JSON string literal (quote and
backslash; control/non-ASCII escapes are not modelled). -/
def escChar (c : Char) : String :=
  if c = '\\' then "\\\\" else if c = '"' then "\\\"" else String.singleton c

/-- Escape of a string for `json.dumps`. -/
def escString (s : String) : String :=
  String.join (s.data.map escChar)

mutual

/-- Python `json.dumps` with the default separators `", "` and `": "`. -/
def dumps : Json → String
  | .null => "null"
  | .bool true => "true"
  | .bool false => "false"
  | .num n => toString n
  | .str s => "\"" ++ escString s ++ "\""
  | .arr xs => "[" ++ String.intercalate ", " (dumpsList xs) ++ "]"
  | .obj fs => "\x7b" ++ String.intercalate ", " (dumpsFields fs) ++ "\x7d"

/-- `dumps` of each element of a list. -/
def dumpsList : List Json → List String
  | [] => []
  | x :: xs => dumps x :: dumpsList xs

/-- `dumps` of each `"key": value` pair of a dict. -/
def dumpsFields : List (String × Json) → List String
  | [] => []
  | (k, v) :: xs => ("\"" ++ escString k ++ "\": " ++ dumps v) :: dumpsFields xs

end

end Json

/-- Python `s.startswith(p)` on actual strings (`entry_id.startswith(...)`
raises on non-strings, which the caller models separately). -/
def strStarts (s p : String) : Bool :=
  p.data.isPrefixOf s.data

/-- Python `s.startswith(p)` as called on an `entry.get("entryId", "")`
value: raises (`.error`) when the receiver is not a string. -/
def Json.pyStartsWith (j : Json) (p : String) : Except Unit Bool :=
  match j with
  | .str s => .ok (strStarts s p)
  | _ => .error ()

/-- Python string slicing `s[:n]` (character-based, like `String.take`,
but phrased on the character list so that it reduces well). -/
def strTake (s : String) (n : Nat) : String :=
  ⟨s.data.take n⟩

/-- SQLite `<` on TEXT values (BINARY collation = lexicographic on the
UTF-8 bytes, which coincides with lexicographic code-point order). -/
def strLtB (a b : String) : Bool :=
  decide (a.data < b.data)

/-! ## `app/twitter_client.py` — the normalizer -/

/-- The dict returned by `TwitterClient._extract_tweet_data`
(`twitter_client.py:192-203`).  All ten keys are always present, so the
`.get(key, default)` calls of `_process_tweet_data` always find them; fields
that Python fills from unvalidated JSON keep type `Json`. -/
structure TweetData where
  tweet_id : Json
  text : Json
  author_id : Json
  author_username : Json
  created_at : Json
  bookmarked : Json
  has_media_image : Nat
  has_media_video : Nat
  url : Option String
  source_json : String

/-- The media scan of `_extract_tweet_data` (`twitter_client.py:171-178`):
accumulates `(has_image, has_video)` over the media list; a `"photo"` item
sets the first flag, a `"video"` or `"animated_gif"` item the second; a
non-dict item raises. -/
def scanMedia : Bool → Bool → List Json → Except Unit (Bool × Bool)
  | hi, hv, [] => .ok (hi, hv)
  | hi, hv, m :: ms => do
    let mt ← m.pyGetD "type" (Json.str "")
    if mt.pyEq (.str "photo") then
      scanMedia true hv ms
    else if mt.pyEq (.str "video") || mt.pyEq (.str "animated_gif") then
      scanMedia hi true ms
    else
      scanMedia hi hv ms

/-- `TwitterClient._extract_tweet_data` (`twitter_client.py:156-203`).
The `entry` argument is accepted and ignored exactly as in the source.
An `.error` result models a Python exception escaping to the caller's
`try`/`except`. -/
def _extract_tweet_data (tweet_result entry : Json) : Except Unit TweetData := do
  let _ := entry
  let legacy ← tweet_result.pyGetD "legacy" (.obj [])
  let core ← tweet_result.pyGetD "core" (.obj [])
  let ur ← core.pyGetD "user_results" (.obj [])
  let user_results ← ur.pyGetD "result" (.obj [])
  let _user_legacy ← user_results.pyGetD "legacy" (.obj [])
  let tweet_id ← tweet_result.pyGetD "rest_id" (.str "")
  let ucore ← user_results.pyGetD "core" (.obj [])
  let author_username ← ucore.pyGetD "screen_name" (.str "")
  let entities ← legacy.pyGetD "entities" (.obj [])
  let extended_entities ← legacy.pyGetD "extended_entities" (.obj [])
  let entMedia ← entities.pyGetD "media" (.arr [])
  let media_list ← extended_entities.pyGetD "media" entMedia
  let mediaItems ← media_list.pyIter
  let flags ← scanMedia false false mediaItems
  let url : Option String :=
    if author_username.pyTruthy && tweet_id.pyTruthy then
      some ("https://x.com/" ++ author_username.pyStr ++ "/status/" ++ tweet_id.pyStr)
    else
      none
  let text0 ← legacy.pyGetD "full_text" (.str "")
  let note_tweet ← tweet_result.pyGetD "note_tweet" (.obj [])
  let text ←
    if note_tweet.pyTruthy then do
      let ntr ← note_tweet.pyGetD "note_tweet_results" (.obj [])
      let note_results ← ntr.pyGetD "result" (.obj [])
      let note_text ← note_results.pyGetD "text" (.str "")
      pure (if note_text.pyTruthy then note_text else text0)
    else
      pure text0
  let author_id ← user_results.pyGetD "rest_id" (.str "")
  let created_at ← legacy.pyGetD "created_at" (.str "")
  let bookmarked ← legacy.pyGetD "bookmarked" (.bool false)
  pure {
    tweet_id := tweet_id
    text := text
    author_id := author_id
    author_username := author_username
    created_at := created_at
    bookmarked := bookmarked
    has_media_image := if flags.1 then 1 else 0
    has_media_video := if flags.2 then 1 else 0
    url := url
    source_json := tweet_result.dumps
  }

/-- The mutable locals of `parse_bookmarks_response`
(`twitter_client.py:121-122`): the accumulated tweet list and the current
`next_cursor` (`Json.null` for Python `None`). -/
structure ParseAcc where
  tweets : List TweetData
  next_cursor : Json

/-- The body of the inner `for entry in entries` loop of
`parse_bookmarks_response` (`twitter_client.py:132-149`): cursor entries
(prefixed `cursor-bottom`, inner `cursorType == "Bottom"`) set
`next_cursor`; tweet entries (prefixed `tweet-`) whose result payload has
`__typename == "Tweet"` are extracted and appended; everything else is
skipped.  An `.error` models a Python exception; note every raise happens
before the accumulator is mutated for this entry. -/
def processEntry (acc : ParseAcc) (entry : Json) : Except Unit ParseAcc := do
  let entry_id ← entry.pyGetD "entryId" (.str "")
  let isCursorBottom ← entry_id.pyStartsWith "cursor-bottom"
  if isCursorBottom then do
    let content ← entry.pyGetD "content" (.obj [])
    let ct ← content.pyGet "cursorType"
    if ct.pyEq (.str "Bottom") then do
      let v ← content.pyGet "value"
      pure { acc with next_cursor := v }
    else
      pure acc
  else do
    let isTweet ← entry_id.pyStartsWith "tweet-"
    if isTweet then do
      let content ← entry.pyGetD "content" (.obj [])
      let item_content ← content.pyGetD "itemContent" (.obj [])
      let tweet_results ← item_content.pyGetD "tweet_results" (.obj [])
      let result ← tweet_results.pyGetD "result" (.obj [])
      let tn ← result.pyGet "__typename"
      if tn.pyEq (.str "Tweet") then do
        let td ← _extract_tweet_data result entry
        pure { acc with tweets := acc.tweets ++ [td] }
      else
        pure acc
    else
      pure acc

/-- The inner entry loop run to completion.  The boolean records whether an
exception was raised: the loop then stops with the accumulator as it stood,
and the exception propagates (aborting the instruction loop too). -/
def runEntries (acc : ParseAcc) : List Json → ParseAcc × Bool
  | [] => (acc, false)
  | e :: es =>
    match processEntry acc e with
    | .ok acc2 => runEntries acc2 es
    | .error _ => (acc, true)

/-- The outer `for instruction in instructions` loop of
`parse_bookmarks_response` (`twitter_client.py:128-149`): only instructions
with `type == "TimelineAddEntries"` contribute entries.  The boolean again
records a raised exception. -/
def runInstructions (acc : ParseAcc) : List Json → ParseAcc × Bool
  | [] => (acc, false)
  | ins :: rest =>
    match ins.pyGet "type" with
    | .error _ => (acc, true)
    | .ok t =>
      if t.pyEq (.str "TimelineAddEntries") then
        match ins.pyGetD "entries" (.arr []) with
        | .error _ => (acc, true)
        | .ok entriesJ =>
          match entriesJ.pyIter with
          | .error _ => (acc, true)
          | .ok entries =>
            match runEntries acc entries with
            | (acc2, true) => (acc2, true)
            | (acc2, false) => runInstructions acc2 rest
      else
        runInstructions acc rest

/-- The header traversal of `parse_bookmarks_response`
(`twitter_client.py:125-126`):
`response.get("data", {}).get("bookmark_timeline_v2", {}).get("timeline", {})`
then `timeline.get("instructions", [])`, iterated. -/
def parseHeader (response : Json) : Except Unit (List Json) := do
  let data ← response.pyGetD "data" (.obj [])
  let btl ← data.pyGetD "bookmark_timeline_v2" (.obj [])
  let timeline ← btl.pyGetD "timeline" (.obj [])
  let instructions ← timeline.pyGetD "instructions" (.arr [])
  instructions.pyIter

/-- `TwitterClient.parse_bookmarks_response` (`twitter_client.py:111-154`).
The whole traversal sits inside `try: ... except Exception:`, so any raise
returns whatever `tweets`/`next_cursor` had accumulated by that point
(`Json.null` standing for Python `None`). -/
def parse_bookmarks_response (response : Json) : List TweetData × Json :=
  match parseHeader response with
  | .error _ => ([], Json.null)
  | .ok instrs =>
    let r := runInstructions ⟨[], Json.null⟩ instrs
    (r.1.tweets, r.1.next_cursor)

/-! ## `app/models.py` — the data model -/

/-- A row of the `tweets` table (`models.py:17-40`).  Columns filled from
unvalidated upstream JSON keep type `Json`; columns the code always fills
with local timestamps or flags are typed concretely.  `id` is the SQLite
rowid (`autoincrement`). -/
structure Tweet where
  id : Nat
  tweet_id : Json
  text : Json
  author_id : Json
  author_username : Json
  created_at : Json
  bookmarked_at : String
  is_read : Nat
  has_media_image : Nat
  has_media_video : Nat
  url : Option String
  source_json : Option String
  is_deleted : Nat
  inserted_at : String
  updated_at : String
  sync_state_id : Option Nat

/-- A row of the `sync_state` table (`models.py:43-60`).  All columns are
nullable with default `None`; `page_cursor` is typed `Json` because the code
assigns it the raw `next_cursor` value (`Json.null` for SQL NULL). -/
structure SyncState where
  id : Nat
  last_sync_started_at : Option String
  last_sync_completed_at : Option String
  last_seen_marker : Option String
  last_error : Option String
  page_cursor : Json
  bookmarks_added : Option Nat
  bookmarks_updated : Option Nat

/-- The `CheckConstraint("id = 1", name="singleton_check")` on `sync_state`
(`models.py:60`): a row satisfies the schema only when its id is 1. -/
def syncStateSingletonCheck (s : SyncState) : Bool :=
  s.id == 1

/-- The two tables the sync engine touches, each in rowid (insertion)
order. -/
structure DB where
  tweets : List Tweet
  sync_states : List SyncState

/-- The empty database, as after `Base.metadata.create_all`. -/
def emptyDB : DB :=
  { tweets := [], sync_states := [] }

/-- The singleton row `SyncState(id=1)` inserted by `init_db`
(`models.py:113-117`); every other column takes its default `None`. -/
def initialSyncStateRow : SyncState :=
  { id := 1
    last_sync_started_at := none
    last_sync_completed_at := none
    last_seen_marker := none
    last_error := none
    page_cursor := Json.null
    bookmarks_added := none
    bookmarks_updated := none }

/-- `models.init_db` (`models.py:105-119`): create the tables, then insert
the singleton `sync_state` row with id 1 if it is not already present. -/
def init_db (db : DB) : DB :=
  if (db.sync_states.find? (fun s => s.id == 1)).isSome then
    db
  else
    { db with sync_states := db.sync_states ++ [initialSyncStateRow] }

/-! ## `app/main.py` — queries and helpers -/

/-- SQLite rowid assignment for an insert without explicit id: one more
than the largest rowid in the table. -/
def nextTweetRowId (rows : List Tweet) : Nat :=
  rows.foldl (fun m t => max m t.id) 0 + 1

/-- SQLite rowid assignment for the `sync_state` insert of
`main.py:727-728`. -/
def nextSyncStateId (rows : List SyncState) : Nat :=
  rows.foldl (fun m s => max m s.id) 0 + 1

/-- `ORDER BY x DESC` position on a nullable integer column: SQLite treats
NULL as smaller than every value, so NULL rows sort last under DESC.
`optNatDescBefore a b` says a row with value `a` comes strictly before one
with value `b`. -/
def optNatDescBefore (a b : Option Nat) : Bool :=
  match a, b with
  | some x, some y => decide (y < x)
  | some _, none => true
  | none, _ => false

/-- `ORDER BY x DESC` position on a nullable TEXT column (NULLs last). -/
def optStrDescBefore (a b : Option String) : Bool :=
  match a, b with
  | some x, some y => strLtB y x
  | some _, none => true
  | none, _ => false

/-- The ordering of the marker query of `sync_bookmarks` (`main.py:720-724`):
`ORDER BY sync_state_id DESC, inserted_at` (ascending). -/
def latestSyncedBefore (a b : Tweet) : Bool :=
  optNatDescBefore a.sync_state_id b.sync_state_id ||
    (a.sync_state_id == b.sync_state_id && strLtB a.inserted_at b.inserted_at)

/-- `query(...).order_by(...).first()` over the `tweets` table: the row that
no other row strictly precedes; on full ties the earlier row in scan
(rowid) order wins. -/
def queryFirstTweet (better : Tweet → Tweet → Bool) : List Tweet → Option Tweet
  | [] => none
  | t :: ts => some (ts.foldl (fun best x => if better x best then x else best) t)

/-- `query(...).order_by(...).first()` over the `sync_state` table. -/
def queryFirstSyncState (better : SyncState → SyncState → Bool) :
    List SyncState → Option SyncState
  | [] => none
  | s :: ss => some (ss.foldl (fun best x => if better x best then x else best) s)

/-- The marker query of `sync_bookmarks` (`main.py:720-724`):
`db.query(Tweet.tweet_id).order_by(desc(Tweet.sync_state_id), Tweet.inserted_at).first()`. -/
def queryLatestSyncedBookmark (rows : List Tweet) : Option Tweet :=
  queryFirstTweet latestSyncedBefore rows

/-- The run-record lookup of `_handle_sync_error` (and `/health`, `/stats`):
`db.query(SyncState).order_by(desc(SyncState.last_sync_started_at)).first()`. -/
def queryLatestSyncState (rows : List SyncState) : Option SyncState :=
  queryFirstSyncState
    (fun a b => optStrDescBefore a.last_sync_started_at b.last_sync_started_at)
    rows

/-- In-place UPDATE of the `sync_state` row with the given id (the ORM
object's flush; ids are unique because each insert takes `max + 1`). -/
def updateSyncRow (rows : List SyncState) (ssid : Nat) (f : SyncState → SyncState) :
    List SyncState :=
  rows.map (fun s => if s.id == ssid then f s else s)

/-- The mutation of the existing row in the update branch of
`_process_tweet_data` (`main.py:280-285`): text, source_json and updated_at
are refreshed, the soft-delete flag is cleared and the row is re-pointed at
the current sync batch; every other column is left as it was. -/
def mkUpdatedTweet (t : Tweet) (td : TweetData) (ssid : Nat) (current_time : String) :
    Tweet :=
  { t with
    text := td.text
    source_json := some td.source_json
    updated_at := current_time
    is_deleted := 0
    sync_state_id := some ssid }

/-- The fresh row built in the insert branch of `_process_tweet_data`
(`main.py:288-304`).  The `.get` defaults of the source are dead because
`_extract_tweet_data` always fills all ten keys. -/
def mkNewTweet (id : Nat) (td : TweetData) (ssid : Nat) (current_time : String) :
    Tweet :=
  { id := id
    tweet_id := td.tweet_id
    text := td.text
    author_id := td.author_id
    author_username := td.author_username
    created_at := td.created_at
    bookmarked_at := current_time
    is_read := 0
    has_media_image := td.has_media_image
    has_media_video := td.has_media_video
    url := td.url
    source_json := some td.source_json
    is_deleted := 0
    inserted_at := current_time
    updated_at := current_time
    sync_state_id := some ssid }

/-- Mutation of the first row matching the filter (the object returned by
`.filter_by(...).first()`). -/
def updateFirstTweet (p : Tweet → Bool) (f : Tweet → Tweet) : List Tweet → List Tweet
  | [] => []
  | t :: ts => if p t then f t :: ts else t :: updateFirstTweet p f ts

/-- `_process_tweet_data` (`main.py:262-305`): falsy `tweet_id` is a no-op
returning `(0, 0)`; otherwise insert-or-update keyed on `tweet_id`,
returning `(new_count, updated_count)`.  The session has `autoflush`, so the
staged insert is immediately visible to later queries. -/
def _process_tweet_data (db : DB) (td : TweetData) (sync_state_id : Nat)
    (current_time : String) : DB × Nat × Nat :=
  if !td.tweet_id.pyTruthy then
    (db, 0, 0)
  else
    match db.tweets.find? (fun t => t.tweet_id.pyEq td.tweet_id) with
    | some _ =>
      ({ db with
          tweets := updateFirstTweet (fun t => t.tweet_id.pyEq td.tweet_id)
            (fun t => mkUpdatedTweet t td sync_state_id current_time) db.tweets },
        0, 1)
    | none =>
      ({ db with
          tweets := db.tweets ++
            [mkNewTweet (nextTweetRowId db.tweets) td sync_state_id current_time] },
        1, 0)

/-- `_handle_sync_error` (`main.py:308-318`): pick the `sync_state` row with
the greatest `last_sync_started_at` and store the error text truncated to
1000 characters in its `last_error` column; nothing else is touched.
`error_msg` stands for `f"{str(error)}\n{traceback.format_exc()}"`. -/
def _handle_sync_error (db : DB) (error_msg : String) : DB :=
  match queryLatestSyncState db.sync_states with
  | none => db
  | some ss =>
    { db with
      sync_states := updateSyncRow db.sync_states ss.id
        (fun s => { s with last_error := some (strTake error_msg 1000) }) }

/-! ## `app/main.py` — the `sync_bookmarks` loop -/

/-- The mutable locals of the `while True:` loop of `sync_bookmarks`
(`main.py:737-741`), plus the session state and the index into the
`datetime.now()` stream. -/
structure LoopState where
  db : DB
  clk : Nat
  total_fetched : Nat
  new_bookmarks : Nat
  updated_bookmarks : Nat
  pages_fetched : Nat
  cursor : Json

/-- The marker test of `main.py:761`:
`latest_synced_bookmark and tweet_data.get("tweet_id") == latest_synced_bookmark[0]`. -/
def markerMatches (marker : Option Json) (td : TweetData) : Bool :=
  match marker with
  | some m => td.tweet_id.pyEq m
  | none => false

/-- Result of the `for tweet_data in tweets` loop of `main.py:760-770`. -/
structure PageOutcome where
  db : DB
  clk : Nat
  nb : Nat
  ub : Nat
  markerHit : Bool

/-- The `for tweet_data in tweets` loop of `main.py:760-770`: each record is
first checked against the marker (a hit breaks out, before any upsert and
before `datetime.now()` is consulted); otherwise it is upserted with a fresh
timestamp and the running counters grow. -/
def processTweets (marker : Option Json) (ssid : Nat) (times : Nat → String) :
    List TweetData → DB → Nat → Nat → Nat → PageOutcome
  | [], db, clk, nb, ub => ⟨db, clk, nb, ub, false⟩
  | td :: rest, db, clk, nb, ub =>
    if markerMatches marker td then
      ⟨db, clk, nb, ub, true⟩
    else
      let r := _process_tweet_data db td ssid (times clk)
      processTweets marker ssid times rest r.1 (clk + 1) (nb + r.2.1) (ub + r.2.2)

/-- The per-page progress commit of `main.py:772-777`: after the record loop
the session is committed and `sync_state.page_cursor` is set to
`next_cursor` and committed.  Only the cursor column of the run record is
written here. -/
def setPageCursor (db : DB) (ssid : Nat) (nc : Json) : DB :=
  { db with
    sync_states := updateSyncRow db.sync_states ssid
      (fun s => { s with page_cursor := nc }) }

/-- One full page body of the `while True:` loop (`main.py:756-777`), after
the fetch/parse and the loop-detection check: bump `pages_fetched` and
`total_fetched` by the whole parsed page, run the record loop (a marker hit
forces `next_cursor` to null), then commit the page and the cursor.  Returns
the updated state and the (possibly forced) `next_cursor`; the caller breaks
when it is falsy. -/
def syncPage (marker : Option Json) (ssid : Nat) (times : Nat → String)
    (tweets : List TweetData) (nc0 : Json) (st : LoopState) : LoopState × Json :=
  let po := processTweets marker ssid times tweets st.db st.clk
    st.new_bookmarks st.updated_bookmarks
  let next_cursor := if po.markerHit then Json.null else nc0
  let db2 := setPageCursor po.db ssid next_cursor
  ({ st with
      db := db2
      clk := po.clk
      new_bookmarks := po.nb
      updated_bookmarks := po.ub
      pages_fetched := st.pages_fetched + 1
      total_fetched := st.total_fetched + tweets.length },
    next_cursor)

/-- The cursor-loop check of `main.py:749-753`:
`cursor is not None and next_cursor is not None and str(cursor) == str(next_cursor)`. -/
def loopDetect (cursor nc : Json) : Bool :=
  !cursor.isNull && !nc.isNull && cursor.pyStr == nc.pyStr

/-- Outcome of the `while True:` loop: a normal `break` with the final
state, an exception escaping to the `except` block, or fuel exhaustion (an
artifact of embedding the unbounded Python loop). -/
inductive LoopResult where
  | finished (st : LoopState)
  | failed (e : String) (st : LoopState)
  | fuelOut (st : LoopState)

/-- The `while True:` loop of `sync_bookmarks` (`main.py:743-783`), with
explicit fuel.  Each round: fetch one page with the current cursor (a fetch
error is the unhandled exception of the run), parse it, `break` if the
cursor repeats, otherwise run the page body; `break` when the resulting
`next_cursor` is falsy, else continue with `cursor = next_cursor`. -/
def syncLoop (fetch : Json → Except String Json) (marker : Option Json)
    (ssid : Nat) (times : Nat → String) : Nat → LoopState → LoopResult
  | 0, st => .fuelOut st
  | fuel + 1, st =>
    match fetch st.cursor with
    | .error e => .failed e st
    | .ok response =>
      let pr := parse_bookmarks_response response
      if loopDetect st.cursor pr.2 then
        .finished st
      else
        let sp := syncPage marker ssid times pr.1 pr.2 st
        if sp.2.pyTruthy then
          syncLoop fetch marker ssid times fuel { sp.1 with cursor := sp.2 }
        else
          .finished sp.1

/-- The success payload of `sync_bookmarks` (`main.py:793-801`). -/
structure SyncSummary where
  sync_started_at : String
  sync_completed_at : String
  pages_fetched : Nat
  total_fetched : Nat
  new_bookmarks : Nat
  updated_bookmarks : Nat

/-- The completion commit of `main.py:786-791`: the run record receives
`last_sync_completed_at`, `page_cursor = cursor` (the cursor used to fetch
the final page — not the final `next_cursor`), and the two counters. -/
def syncComplete (db : DB) (ssid : Nat) (sync_end : String) (cursor : Json)
    (nb ub : Nat) : DB :=
  { db with
    sync_states := updateSyncRow db.sync_states ssid
      (fun s =>
        { s with
          last_sync_completed_at := some sync_end
          page_cursor := cursor
          bookmarks_added := some nb
          bookmarks_updated := some ub }) }

/-- Result of one `POST /sync` call: the 200 success body, the 500 failure
raised after `_handle_sync_error`, or fuel exhaustion. -/
inductive SyncResult where
  | success (summary : SyncSummary) (db : DB)
  | failure (detail : String) (db : DB)
  | outOfFuel (db : DB)

/-- The run-record row inserted by `sync_bookmarks` (`main.py:727-731`):
a brand-new `SyncState()` added to the session, its `last_sync_started_at`
set to the run's start time and `last_error` cleared, then committed.
SQLite assigns it rowid `max + 1`. -/
def newRunRow (ssid : Nat) (sync_start : String) : SyncState :=
  { id := ssid
    last_sync_started_at := some sync_start
    last_sync_completed_at := none
    last_seen_marker := none
    last_error := none
    page_cursor := Json.null
    bookmarks_added := none
    bookmarks_updated := none }

/-- `sync_bookmarks` (`main.py:705-805`).  `fetch` abstracts
`client.fetch_bookmarks` (an `.error` is an exception from the fetch, the
only failure source modelled inside the loop); `tb` stands for the
`traceback.format_exc()` text appended to the error message; `times` is the
stream of `datetime.now().isoformat()` values (index 0 is `sync_start`, one
index per processed record, and the next unused index is `sync_end`);
`fuel` bounds the embedded `while True:` loop. -/
def sync_bookmarks (fetch : Json → Except String Json) (tb : String)
    (times : Nat → String) (fuel : Nat) (db0 : DB) : SyncResult :=
  let sync_start := times 0
  let latest := queryLatestSyncedBookmark db0.tweets
  let marker := latest.map (fun t => t.tweet_id)
  let ssid := nextSyncStateId db0.sync_states
  let db1 : DB := { db0 with sync_states := db0.sync_states ++ [newRunRow ssid sync_start] }
  let st0 : LoopState :=
    { db := db1, clk := 1, total_fetched := 0, new_bookmarks := 0,
      updated_bookmarks := 0, pages_fetched := 0, cursor := Json.null }
  match syncLoop fetch marker ssid times fuel st0 with
  | .finished st =>
    let sync_end := times st.clk
    let db2 := syncComplete st.db ssid sync_end st.cursor
      st.new_bookmarks st.updated_bookmarks
    .success
      { sync_started_at := sync_start
        sync_completed_at := sync_end
        pages_fetched := st.pages_fetched
        total_fetched := st.total_fetched
        new_bookmarks := st.new_bookmarks
        updated_bookmarks := st.updated_bookmarks }
      db2
  | .failed e st =>
    let db2 := _handle_sync_error st.db (e ++ "\n" ++ tb)
    .failure ("Sync failed: " ++ e) db2
  | .fuelOut st => .outOfFuel st.db

/-- The database state carried by any result branch. -/
def SyncResult.dbOut : SyncResult → DB
  | .success _ db => db
  | .failure _ db => db
  | .outOfFuel db => db

/-- Whether the endpoint reported success (HTTP 200 with a summary). -/
def SyncResult.isSuccess : SyncResult → Bool
  | .success _ _ => true
  | _ => false

/-- The success summary, when the run completed. -/
def SyncResult.summaryOut : SyncResult → Option SyncSummary
  | .success s _ => some s
  | _ => none

/-! ## Concrete upstream pages and databases used by the theorems -/

/-- A minimal well-formed `tweet-` entry: the result payload carries only
the typename tag and its id. -/
def tweetEntryJ (eid tid : String) : Json :=
  .obj [("entryId", .str ("tweet-" ++ eid)),
        ("content", .obj [("itemContent", .obj [("tweet_results",
          .obj [("result", .obj [("__typename", .str "Tweet"), ("rest_id", .str tid)])])])])]

/-- A bottom-cursor entry carrying the pagination value `v`. -/
def cursorEntryJ (v : String) : Json :=
  .obj [("entryId", .str "cursor-bottom-9999"),
        ("content", .obj [("cursorType", .str "Bottom"), ("value", .str v)])]

/-- A `TimelineAddEntries` instruction with the given entries. -/
def instrJ (entries : List Json) : Json :=
  .obj [("type", .str "TimelineAddEntries"), ("entries", .arr entries)]

/-- A full raw page document around the given entries. -/
def pageJ (entries : List Json) : Json :=
  .obj [("data", .obj [("bookmark_timeline_v2", .obj [("timeline",
    .obj [("instructions", .arr [instrJ entries])])])])]

/-- A deterministic stand-in for the `datetime.now().isoformat()` stream. -/
def timesT : Nat → String := fun n => "T" ++ toString n

/-- A bookmark row as a previous sync would have left it: tweet id `tid`,
inserted under sync batch `ssid` at time `at_`. -/
def oldRow (rid : Nat) (tid : String) (ssid : Nat) (at_ : String) : Tweet :=
  { id := rid, tweet_id := .str tid, text := .str "old text",
    author_id := .str "", author_username := .str "", created_at := .str "",
    bookmarked_at := at_, is_read := 0, has_media_image := 0,
    has_media_video := 0, url := none, source_json := none, is_deleted := 0,
    inserted_at := at_, updated_at := at_, sync_state_id := some ssid }

/-- A database holding one previously synced bookmark `m0` (the marker of
the next run) and the singleton state row from `init_db`. -/
def dbMarker : DB :=
  init_db { tweets := [oldRow 1 "m0" 1 "T-old"], sync_states := [] }

/-- A two-page upstream: page 1 holds bookmark `a1` and cursor `C1`;
page 2 (fetched with `C1`) starts with the already-synced `m0`, then `b3`,
and advertises a further cursor `C2`; any other cursor is out of scope. -/
def fetchTwoPages : Json → Except String Json := fun c =>
  if c.pyEq .null then .ok (pageJ [tweetEntryJ "1" "a1", cursorEntryJ "C1"])
  else if c.pyEq (.str "C1") then
    .ok (pageJ [tweetEntryJ "2" "m0", tweetEntryJ "3" "b3", cursorEntryJ "C2"])
  else .error "unexpected cursor"

/-- The run of `POST /sync` against `fetchTwoPages` from `dbMarker`. -/
def runTwoPages : SyncResult :=
  sync_bookmarks fetchTwoPages "TB" timesT 10 dbMarker

/-- A one-page upstream whose first record is the already-synced marker
`m0`. -/
def fetchMarkerFirst : Json → Except String Json := fun _ =>
  .ok (pageJ [tweetEntryJ "1" "m0", tweetEntryJ "2" "b2", cursorEntryJ "C1"])

/-- The run of `POST /sync` against `fetchMarkerFirst` from `dbMarker`. -/
def runMarkerFirst : SyncResult :=
  sync_bookmarks fetchMarkerFirst "TB" timesT 10 dbMarker

/-! ## Helper lemmas -/

/-- When no record before `tm` matches the marker and `tm` does, the record
loop processes exactly the records before `tm` and reports a marker hit. -/
theorem processTweets_append_hit (marker : Option Json) (ssid : Nat)
    (times : Nat → String) (pre : List TweetData) (tm : TweetData)
    (post : List TweetData) (db : DB) (clk nb ub : Nat)
    (hpre : ∀ td ∈ pre, markerMatches marker td = false)
    (hm : markerMatches marker tm = true) :
    processTweets marker ssid times (pre ++ tm :: post) db clk nb ub =
      { processTweets marker ssid times pre db clk nb ub with markerHit := true } := by
  induction pre generalizing db clk nb ub with
  | nil => simp [processTweets, hm]
  | cons td rest ih =>
    have h1 : markerMatches marker td = false := hpre td (by simp)
    simp only [List.cons_append, processTweets, h1, Bool.false_eq_true, if_false]
    exact ih _ _ _ _ (fun x hx => hpre x (by simp [hx]))

/-- The state in which the loop ends a page cut short by the marker: the
records before the marker are processed, the page still counts fully toward
`pages_fetched`/`total_fetched` (the whole parsed page, `tweetsLen`), the
forced null cursor is committed to the run record, and `cursor` itself is
left at the value used to fetch this page. -/
def markerPageState (marker : Option Json) (ssid : Nat) (times : Nat → String)
    (pre : List TweetData) (tweetsLen : Nat) (st : LoopState) : LoopState :=
  let po := processTweets marker ssid times pre st.db st.clk
    st.new_bookmarks st.updated_bookmarks
  { st with
    db := setPageCursor po.db ssid Json.null
    clk := po.clk
    new_bookmarks := po.nb
    updated_bookmarks := po.ub
    pages_fetched := st.pages_fetched + 1
    total_fetched := st.total_fetched + tweetsLen }

/-! ## C1 -/

/-- **C1** — the claim is right about the schema's intent and wrong about
the code: `models.py` declares `sync_state` a singleton (`CHECK (id = 1)`,
created once by `init_db`), but `sync_bookmarks` constructs and inserts a
brand-new `SyncState()` row on every run.  After `init_db` a single `/sync`
call leaves two run-state rows, `[1, 2]`, and the new row violates the
singleton check (on a real SQLite backend this insert is rejected, so the
claim's "mutated in place, never an additional record" is what the schema
demands and not what the code does). -/
theorem sync_run_inserts_second_state_row :
    (init_db emptyDB).sync_states.map SyncState.id = [1] ∧
    (sync_bookmarks (fun _ => Except.error "boom") "TB" timesT 1
        (init_db emptyDB)).dbOut.sync_states.map SyncState.id = [1, 2] ∧
    (sync_bookmarks (fun _ => Except.error "boom") "TB" timesT 1
        (init_db emptyDB)).dbOut.sync_states.map syncStateSingletonCheck =
      [true, false] :=
  ⟨rfl, rfl, rfl⟩

/-! ## C2 -/

/-- **C2 counterexample** — against the two-page upstream, the marker `m0`
(captured from `dbMarker`) is the first record of page 2; the run processes
only `a1` (one new bookmark), discards the rest (`total_fetched = 3`), and
ends after page 2 — but the cursor persisted on the run record at
completion is `"C1"` (the cursor used to fetch the marker page), not null:
`main.py:788` overwrites the per-page null with `cursor`. -/
theorem marker_stop_persists_fetch_cursor :
    queryLatestSyncedBookmark dbMarker.tweets = some (oldRow 1 "m0" 1 "T-old") ∧
    (parse_bookmarks_response
        (pageJ [tweetEntryJ "2" "m0", tweetEntryJ "3" "b3", cursorEntryJ "C2"])).1.map
      TweetData.tweet_id = [.str "m0", .str "b3"] ∧
    runTwoPages.summaryOut = some
      { sync_started_at := "T0", sync_completed_at := "T2", pages_fetched := 2,
        total_fetched := 3, new_bookmarks := 1, updated_bookmarks := 0 } ∧
    runTwoPages.dbOut.sync_states.map SyncState.page_cursor =
      [Json.null, Json.str "C1"] ∧
    Json.str "C1" ≠ Json.null :=
  ⟨rfl, rfl, rfl, rfl, fun h => Json.noConfusion h⟩

/-- The record `_extract_tweet_data` yields for a minimal `tweet-` entry
with id `tid`: every optional substructure degrades to its default. -/
def tdOf (tid : String) : TweetData :=
  { tweet_id := .str tid, text := .str "", author_id := .str "",
    author_username := .str "", created_at := .str "", bookmarked := .bool false,
    has_media_image := 0, has_media_video := 0, url := none,
    source_json := "\x7b\"__typename\": \"Tweet\", \"rest_id\": \"" ++ tid ++ "\"\x7d" }

/-- The loop state of the `runMarkerFirst` run just before its first page:
the run row (id 2) has been inserted, the cursor is still null. -/
def stMarkerFirst : LoopState :=
  { db := { tweets := dbMarker.tweets,
            sync_states := dbMarker.sync_states ++ [newRunRow 2 "T0"] },
    clk := 1, total_fetched := 0, new_bookmarks := 0, updated_bookmarks := 0,
    pages_fetched := 0, cursor := Json.null }

/-- **C2 amended** — when a marker was captured and a record of the current
page equals it, the loop stops that page at the marker record: the records
before it are upserted, it and the rest of the page are discarded, the
whole page still counts toward the totals, a null cursor is committed by the
per-page progress write, and the loop finishes after this page with `cursor`
still the value used to fetch it.  The completion step then persists that
fetch cursor (see `syncComplete`), so the run ends with a null cursor on the
run record exactly when the marker was hit on the first page — as in the
concrete `runMarkerFirst` run, whose final persisted cursor is null. -/
theorem marker_stop_ends_loop_after_page (fetch : Json → Except String Json)
    (marker : Option Json) (ssid : Nat) (times : Nat → String) (fuel : Nat)
    (st : LoopState) (response : Json) (tweets : List TweetData) (nc : Json)
    (pre : List TweetData) (tm : TweetData) (post : List TweetData)
    (hf : fetch st.cursor = .ok response)
    (hp : parse_bookmarks_response response = (tweets, nc))
    (hld : loopDetect st.cursor nc = false)
    (hsplit : tweets = pre ++ tm :: post)
    (hpre : ∀ td ∈ pre, markerMatches marker td = false)
    (hm : markerMatches marker tm = true) :
    syncLoop fetch marker ssid times (fuel + 1) st =
      .finished (markerPageState marker ssid times pre tweets.length st) ∧
    runMarkerFirst.dbOut.sync_states.map SyncState.page_cursor =
      [Json.null, Json.null] ∧
    runMarkerFirst.summaryOut = some
      { sync_started_at := "T0", sync_completed_at := "T1", pages_fetched := 1,
        total_fetched := 2, new_bookmarks := 0, updated_bookmarks := 0 } := by
  refine ⟨?_, rfl, rfl⟩
  have hpt := processTweets_append_hit marker ssid times pre tm post st.db st.clk
    st.new_bookmarks st.updated_bookmarks hpre hm
  subst hsplit
  simp [syncLoop, hf, hp, hld, syncPage, hpt, markerPageState, Json.pyTruthy]

/-- Witness for `marker_stop_ends_loop_after_page`: the marker-first page of
`fetchMarkerFirst`, with the marker `m0` matching the first parsed record. -/
theorem marker_stop_ends_loop_after_page_witness :
    fetchMarkerFirst stMarkerFirst.cursor =
      .ok (pageJ [tweetEntryJ "1" "m0", tweetEntryJ "2" "b2", cursorEntryJ "C1"]) ∧
    parse_bookmarks_response
        (pageJ [tweetEntryJ "1" "m0", tweetEntryJ "2" "b2", cursorEntryJ "C1"]) =
      ([tdOf "m0", tdOf "b2"], .str "C1") ∧
    markerMatches (some (.str "m0")) (tdOf "m0") = true ∧
    syncLoop fetchMarkerFirst (some (.str "m0")) 2 timesT 1 stMarkerFirst =
      .finished (markerPageState (some (.str "m0")) 2 timesT [] 2 stMarkerFirst) :=
  ⟨rfl, rfl, rfl,
    (marker_stop_ends_loop_after_page fetchMarkerFirst (some (.str "m0")) 2 timesT 0
      stMarkerFirst _ ([tdOf "m0", tdOf "b2"]) (.str "C1") [] (tdOf "m0") [tdOf "b2"]
      rfl rfl rfl rfl (fun td h => absurd h (List.not_mem_nil td)) rfl).1⟩

/-! ## C3 -/

/-- A one-good-page upstream whose second fetch (cursor `C1`) fails. -/
def fetchFailPage2 : Json → Except String Json := fun c =>
  if c.pyEq .null then .ok (pageJ [tweetEntryJ "1" "a1", cursorEntryJ "C1"])
  else .error "boom"

/-- The run of `POST /sync` against `fetchFailPage2` from a fresh
database. -/
def runFailPage2 : SyncResult :=
  sync_bookmarks fetchFailPage2 "TB" timesT 10 (init_db emptyDB)

/-- `_process_tweet_data` writes only the `tweets` table. -/
theorem process_tweet_data_sync_states (db : DB) (td : TweetData) (ssid : Nat)
    (t : String) :
    (_process_tweet_data db td ssid t).1.sync_states = db.sync_states := by
  unfold _process_tweet_data
  split
  · rfl
  · split <;> rfl

/-- The record loop writes only the `tweets` table. -/
theorem processTweets_sync_states (marker : Option Json) (ssid : Nat)
    (times : Nat → String) (tds : List TweetData) (db : DB) (clk nb ub : Nat) :
    (processTweets marker ssid times tds db clk nb ub).db.sync_states =
      db.sync_states := by
  induction tds generalizing db clk nb ub with
  | nil => rfl
  | cons td rest ih =>
    by_cases h : markerMatches marker td
    · simp [processTweets, h]
    · simp only [processTweets, h, Bool.false_eq_true, if_false]
      rw [ih, process_tweet_data_sync_states]

/-- **C3 counterexample** — page 1 upserts `a1` and its commit stores the
cursor `C1`; the fetch of page 2 then fails.  The durable state after the
failure holds the upserted row and the cursor, but both counter columns of
the run record are still unset (`none`), so the partial counters were *not*
part of the per-page commit, contradicting the claim. -/
theorem page_commit_omits_counters :
    runFailPage2.isSuccess = false ∧
    runFailPage2.dbOut.tweets.map Tweet.tweet_id = [.str "a1"] ∧
    runFailPage2.dbOut.sync_states.map SyncState.page_cursor =
      [Json.null, .str "C1"] ∧
    runFailPage2.dbOut.sync_states.map SyncState.bookmarks_added = [none, none] ∧
    runFailPage2.dbOut.sync_states.map SyncState.bookmarks_updated = [none, none] :=
  ⟨rfl, rfl, rfl, rfl, rfl⟩

/-- **C3 amended** — the per-page commit writes exactly the page's
`next_cursor` into the run record's cursor field (the only `sync_state`
column any page step touches); the added/updated counters are persisted only
by the completion step of a successful run, so after the failing
`runFailPage2` the durable run record holds the cursor and the truncated
error text while both counter columns are still unset. -/
theorem page_commit_persists_cursor_only (marker : Option Json) (ssid : Nat)
    (times : Nat → String) (tweets : List TweetData) (nc0 : Json) (st : LoopState) :
    (syncPage marker ssid times tweets nc0 st).1.db.sync_states =
      updateSyncRow st.db.sync_states ssid
        (fun s => { s with page_cursor := (syncPage marker ssid times tweets nc0 st).2 }) ∧
    runFailPage2.dbOut.sync_states.map SyncState.page_cursor =
      [Json.null, .str "C1"] ∧
    runFailPage2.dbOut.sync_states.map SyncState.last_error =
      [none, some "boom\nTB"] ∧
    runFailPage2.dbOut.sync_states.map SyncState.bookmarks_added = [none, none] := by
  refine ⟨?_, rfl, rfl, rfl⟩
  simp [syncPage, setPageCursor, processTweets_sync_states]

/-! ## C6 -/

/-- A page holding nothing but the bottom cursor `CR`. -/
def repPageJ : Json := pageJ [cursorEntryJ "CR"]

/-- A loop state already carrying the cursor `CR`, about to fetch a page
that will return `CR` again. -/
def stRep : LoopState :=
  { db := { tweets := [], sync_states := [newRunRow 1 "T0"] }, clk := 1,
    total_fetched := 0, new_bookmarks := 0, updated_bookmarks := 0,
    pages_fetched := 0, cursor := .str "CR" }

/-- **C6** — the cursor-loop tie-break: whenever the cursor used for a fetch
and the `next_cursor` the page reports are both non-null and stringwise
equal, the loop stops at once with the state unchanged (first conjunct);
and a whole run against an upstream that returns the same non-empty cursor
forever terminates after the second fetch as a normal success — completion
timestamp set, counters zero, no error recorded (second conjunct). -/
theorem cursor_loop_detection_terminates :
    (∀ (fetch : Json → Except String Json) (marker : Option Json) (ssid : Nat)
      (times : Nat → String) (fuel : Nat) (st : LoopState) (response : Json)
      (tweets : List TweetData) (nc : Json),
      fetch st.cursor = .ok response →
      parse_bookmarks_response response = (tweets, nc) →
      loopDetect st.cursor nc = true →
      syncLoop fetch marker ssid times (fuel + 1) st = .finished st) ∧
    (∀ (response : Json) (c tb : String) (times : Nat → String) (fuel : Nat)
      (db0 : DB),
      c ≠ "" →
      parse_bookmarks_response response = ([], .str c) →
      db0.sync_states = [] →
      sync_bookmarks (fun _ => .ok response) tb times (fuel + 2) db0 = .success
        { sync_started_at := times 0, sync_completed_at := times 1,
          pages_fetched := 1, total_fetched := 0, new_bookmarks := 0,
          updated_bookmarks := 0 }
        { tweets := db0.tweets,
          sync_states :=
            [{ id := 1
               last_sync_started_at := some (times 0)
               last_sync_completed_at := some (times 1)
               last_seen_marker := none
               last_error := none
               page_cursor := .str c
               bookmarks_added := some 0
               bookmarks_updated := some 0 }] }) := by
  constructor
  · intro fetch marker ssid times fuel st response tweets nc hf hp hld
    simp [syncLoop, hf, hp, hld]
  · intro response c tb times fuel db0 hc hresp hdb
    simp [sync_bookmarks, syncLoop, hresp, syncPage, processTweets, setPageCursor,
      updateSyncRow, loopDetect, Json.pyTruthy, Json.isNull, Json.pyStr,
      newRunRow, nextSyncStateId, syncComplete, hdb, hc]

/-- Witness for `cursor_loop_detection_terminates`: a run against the
constant upstream `repPageJ`, whose every page answers with cursor `CR`. -/
theorem cursor_loop_detection_terminates_witness :
    parse_bookmarks_response repPageJ = ([], .str "CR") ∧
    loopDetect stRep.cursor (.str "CR") = true ∧
    syncLoop (fun _ => .ok repPageJ) none 1 timesT 1 stRep = .finished stRep ∧
    sync_bookmarks (fun _ => .ok repPageJ) "TB" timesT 2 emptyDB = .success
      { sync_started_at := "T0", sync_completed_at := "T1", pages_fetched := 1,
        total_fetched := 0, new_bookmarks := 0, updated_bookmarks := 0 }
      { tweets := [],
        sync_states :=
          [{ id := 1
             last_sync_started_at := some "T0"
             last_sync_completed_at := some "T1"
             last_seen_marker := none
             last_error := none
             page_cursor := .str "CR"
             bookmarks_added := some 0
             bookmarks_updated := some 0 }] } :=
  ⟨rfl, rfl,
    cursor_loop_detection_terminates.1 (fun _ => .ok repPageJ) none 1 timesT 0
      stRep repPageJ [] (.str "CR") rfl rfl rfl,
    cursor_loop_detection_terminates.2 repPageJ "CR" "TB" timesT 0 emptyDB
      (by decide) rfl rfl⟩

/-! ## C5 -/

/-- List.find? over the split list: no match before `row`, `row` matches. -/
theorem find?_append_match (p : Tweet → Bool) (pre : List Tweet) (row : Tweet)
    (post : List Tweet) (hpre : ∀ r ∈ pre, p r = false) (hrow : p row = true) :
    (pre ++ row :: post).find? p = some row := by
  induction pre with
  | nil => simp [List.find?_cons_of_pos _ hrow]
  | cons r rest ih =>
    have h1 : p r = false := hpre r (by simp)
    rw [List.cons_append, List.find?_cons_of_neg _ (by simp [h1])]
    exact ih (fun x hx => hpre x (by simp [hx]))

/-- `updateFirstTweet` over the split list rewrites exactly `row`. -/
theorem updateFirstTweet_append (p : Tweet → Bool) (f : Tweet → Tweet)
    (pre : List Tweet) (row : Tweet) (post : List Tweet)
    (hpre : ∀ r ∈ pre, p r = false) (hrow : p row = true) :
    updateFirstTweet p f (pre ++ row :: post) = pre ++ f row :: post := by
  induction pre with
  | nil => simp [updateFirstTweet, hrow]
  | cons r rest ih =>
    have h1 : p r = false := hpre r (by simp)
    simp [updateFirstTweet, h1]
    exact ih (fun x hx => hpre x (by simp [hx]))

/-- A bookmark row without media flags, as an earlier sync stored it. -/
def rowX : Tweet := oldRow 1 "x1" 1 "T-old"

/-- A re-observed record for the same id `x1`, now carrying both media
flags and fresh text. -/
def tdX : TweetData :=
  { tdOf "x1" with has_media_image := 1, has_media_video := 1,
                   text := .str "refreshed text" }

/-- The store holding only `rowX`. -/
def dbX : DB := { tweets := [rowX], sync_states := [] }

/-- **C5 counterexample** — re-ingesting `x1`, whose incoming record has
both media flags set, is classified as an update `(0, 1)` but leaves the
stored row's media flags at `0`: the update branch of `_process_tweet_data`
(`main.py:280-285`) does not refresh `has_media_image`/`has_media_video`,
contradicting the claim that the update refreshes the media flags. -/
theorem upsert_update_keeps_stale_media_flags :
    tdX.has_media_image = 1 ∧
    tdX.has_media_video = 1 ∧
    (_process_tweet_data dbX tdX 2 "T9").2 = (0, 1) ∧
    (_process_tweet_data dbX tdX 2 "T9").1.tweets.map Tweet.has_media_image = [0] ∧
    (_process_tweet_data dbX tdX 2 "T9").1.tweets.map Tweet.has_media_video = [0] :=
  ⟨rfl, rfl, rfl, rfl, rfl⟩

/-- **C5 amended** — for a record whose id already exists in the store,
`_process_tweet_data` rewrites the first matching row in place to
`mkUpdatedTweet row td ssid t` — refreshing exactly its text, raw source and
`updated_at`, clearing the soft-delete flag and re-pointing the sync-batch
reference, while every other column (media flags, author fields,
`created_at`, `bookmarked_at`, `inserted_at`, `is_read`) keeps its old
value — and classifies the record as updated, `(0, 1)`, not added. -/
theorem upsert_updates_first_matching_row (db : DB) (td : TweetData) (ssid : Nat)
    (t : String) (pre : List Tweet) (row : Tweet) (post : List Tweet)
    (hdb : db.tweets = pre ++ row :: post)
    (hid : td.tweet_id.pyTruthy = true)
    (hrow : row.tweet_id.pyEq td.tweet_id = true)
    (hpre : ∀ r ∈ pre, r.tweet_id.pyEq td.tweet_id = false) :
    _process_tweet_data db td ssid t =
      ({ db with tweets := pre ++ mkUpdatedTweet row td ssid t :: post }, 0, 1) := by
  unfold _process_tweet_data
  rw [hid, hdb, find?_append_match _ pre row post hpre hrow,
    updateFirstTweet_append _ _ pre row post hpre hrow]
  simp

/-- Witness for `upsert_updates_first_matching_row`: re-ingesting `x1` into
`dbX` updates `rowX` in place. -/
theorem upsert_updates_first_matching_row_witness :
    dbX.tweets = [] ++ rowX :: [] ∧
    tdX.tweet_id.pyTruthy = true ∧
    rowX.tweet_id.pyEq tdX.tweet_id = true ∧
    _process_tweet_data dbX tdX 2 "T9" =
      ({ dbX with tweets := [] ++ mkUpdatedTweet rowX tdX 2 "T9" :: [] }, 0, 1) :=
  ⟨rfl, rfl, rfl,
    upsert_updates_first_matching_row dbX tdX 2 "T9" [] rowX [] rfl rfl rfl
      (fun r h => absurd h (List.not_mem_nil r))⟩

/-! ## C10 -/

/-- **C10** — when a parsed record's `tweet_id` is falsy (missing ids
default to the empty string, and `None`/empty both fail Python truthiness),
`_process_tweet_data` is a no-op: it returns the store unchanged together
with `(0, 0)`, so neither table nor either counter moves. -/
theorem falsy_tweet_id_upsert_noop (db : DB) (td : TweetData) (ssid : Nat)
    (t : String) (h : td.tweet_id.pyTruthy = false) :
    _process_tweet_data db td ssid t = (db, 0, 0) := by
  unfold _process_tweet_data
  simp [h]

/-- Witness for `falsy_tweet_id_upsert_noop`: a record with empty id
against a non-empty store. -/
theorem falsy_tweet_id_upsert_noop_witness :
    (tdOf "").tweet_id.pyTruthy = false ∧
    _process_tweet_data dbX (tdOf "") 2 "T9" = (dbX, 0, 0) :=
  ⟨rfl, falsy_tweet_id_upsert_noop dbX (tdOf "") 2 "T9" rfl⟩

/-! ## C7 -/

/-- **C7** — unhandled failure handling: (1) `_handle_sync_error` never
touches any row's `last_sync_started_at` or `last_sync_completed_at`;
(2) the stored error text is truncated to at most 1000 characters; (3) a run
whose fetch raises surfaces as a failure (never a success) with the
truncated `f"{str(e)}\n{traceback}"` text persisted on the run record, whose
`last_sync_started_at` is still the recorded start and whose
`last_sync_completed_at` is still unset. -/
theorem sync_failure_persists_truncated_error :
    (∀ (db : DB) (msg : String),
      (_handle_sync_error db msg).sync_states.map SyncState.last_sync_started_at =
        db.sync_states.map SyncState.last_sync_started_at ∧
      (_handle_sync_error db msg).sync_states.map SyncState.last_sync_completed_at =
        db.sync_states.map SyncState.last_sync_completed_at) ∧
    (∀ s : String, (strTake s 1000).length ≤ 1000) ∧
    (∀ (e tb : String) (times : Nat → String) (fuel : Nat) (db0 : DB),
      db0.sync_states = [] →
      sync_bookmarks (fun _ => .error e) tb times (fuel + 1) db0 =
        .failure ("Sync failed: " ++ e)
          { tweets := db0.tweets,
            sync_states :=
              [{ id := 1
                 last_sync_started_at := some (times 0)
                 last_sync_completed_at := none
                 last_seen_marker := none
                 last_error := some (strTake (e ++ "\n" ++ tb) 1000)
                 page_cursor := Json.null
                 bookmarks_added := none
                 bookmarks_updated := none }] }) := by
  refine ⟨?_, ?_, ?_⟩
  · intro db msg
    unfold _handle_sync_error
    cases h : queryLatestSyncState db.sync_states with
    | none => exact ⟨rfl, rfl⟩
    | some ss =>
      constructor <;>
      · simp only [updateSyncRow, List.map_map]
        refine List.map_congr_left (fun s _ => ?_)
        by_cases hh : s.id = ss.id <;> simp [hh]
  · intro s
    exact List.length_take_le 1000 s.data
  · intro e tb times fuel db0 hdb
    simp [sync_bookmarks, syncLoop, _handle_sync_error, queryLatestSyncState,
      queryFirstSyncState, updateSyncRow, newRunRow, nextSyncStateId, hdb]

/-- Witness for `sync_failure_persists_truncated_error`: a first-fetch
failure `"boom"` against a fresh database. -/
theorem sync_failure_persists_truncated_error_witness :
    (strTake "boom" 1000).length ≤ 1000 ∧
    sync_bookmarks (fun _ => Except.error "boom") "TB" timesT 1 emptyDB =
      .failure ("Sync failed: " ++ "boom")
        { tweets := [],
          sync_states :=
            [{ id := 1
               last_sync_started_at := some "T0"
               last_sync_completed_at := none
               last_seen_marker := none
               last_error := some (strTake ("boom" ++ "\n" ++ "TB") 1000)
               page_cursor := Json.null
               bookmarks_added := none
               bookmarks_updated := none }] } :=
  ⟨sync_failure_persists_truncated_error.2.1 "boom",
    sync_failure_persists_truncated_error.2.2 "boom" "TB" timesT 0 emptyDB rfl⟩

/-! ## C4 -/

/-- An entry whose `entryId` is a number: `entry_id.startswith(...)` raises
on it. -/
def malformedEntryJ : Json := .obj [("entryId", .num 5)]

/-- A page with a good tweet, then the malformed entry, then another good
tweet and the bottom cursor. -/
def cexPageC4 : Json :=
  pageJ [tweetEntryJ "1" "a1", malformedEntryJ, tweetEntryJ "2" "b2", cursorEntryJ "CUR"]

/-- A `tweet-` entry whose result payload is a tombstone, not a `Tweet`. -/
def tombstoneEntryJ : Json :=
  .obj [("entryId", .str "tweet-7"),
        ("content", .obj [("itemContent", .obj [("tweet_results",
          .obj [("result", .obj [("__typename", .str "TweetTombstone")])])])])]

/-- **C4 counterexample** — on `cexPageC4` the malformed second entry does
not merely get skipped: parsing of the whole page stops there, so the later
tweet `b2` is lost and the page's cursor `CUR` is *not* extracted (the
result cursor is null), contradicting "the entry is skipped, parsing
continues with the rest of the page; the page's cursor is still honored". -/
theorem malformed_entry_aborts_page :
    parse_bookmarks_response cexPageC4 = ([tdOf "a1"], Json.null) ∧
    processEntry ⟨[tdOf "a1"], Json.null⟩ malformedEntryJ = .error () ∧
    Json.null ≠ Json.str "CUR" :=
  ⟨rfl, rfl, fun h => Json.noConfusion h⟩

/-- **C4 amended** — an entry that is merely unrecognized is skipped with
parsing continuing (first conjunct: unknown `entryId` kinds; fourth
conjunct: a non-`Tweet` result variant, after which the rest of the page and
the cursor are still parsed); after any successfully handled entry the loop
proceeds (second conjunct); but an entry whose traversal raises aborts the
rest of the page, returning the partial accumulator (third conjunct) — so a
cursor is honored only when it was seen before the raising entry (fifth
conjunct). -/
theorem entry_error_aborts_rest_of_page :
    (∀ (acc : ParseAcc) (entry : Json) (eid : String),
      entry.pyGetD "entryId" (.str "") = .ok (.str eid) →
      strStarts eid "cursor-bottom" = false →
      strStarts eid "tweet-" = false →
      processEntry acc entry = .ok acc) ∧
    (∀ (acc : ParseAcc) (e : Json) (es : List Json) (acc2 : ParseAcc),
      processEntry acc e = .ok acc2 →
      runEntries acc (e :: es) = runEntries acc2 es) ∧
    (∀ (acc : ParseAcc) (e : Json) (es : List Json),
      processEntry acc e = .error () →
      runEntries acc (e :: es) = (acc, true)) ∧
    parse_bookmarks_response
        (pageJ [tombstoneEntryJ, tweetEntryJ "1" "t1", cursorEntryJ "CUR"]) =
      ([tdOf "t1"], .str "CUR") ∧
    parse_bookmarks_response (pageJ [cursorEntryJ "CUR", malformedEntryJ]) =
      ([], .str "CUR") := by
  refine ⟨?_, ?_, ?_, rfl, rfl⟩
  · intro acc entry eid hid hc ht
    simp [processEntry, hid, Json.pyStartsWith, hc, ht, Bind.bind, Except.bind,
      Pure.pure, Except.pure, Functor.map, Except.map]
  · intro acc e es acc2 h
    simp [runEntries, h]
  · intro acc e es h
    simp [runEntries, h]

/-- Witness for `entry_error_aborts_rest_of_page`: an unknown entry kind is
skipped, a tombstone entry is handled without error, and the malformed
entry stops the loop. -/
theorem entry_error_aborts_rest_of_page_witness :
    (Json.obj [("entryId", .str "who-knows")]).pyGetD "entryId" (.str "") =
      .ok (.str "who-knows") ∧
    processEntry ⟨[], Json.null⟩ (.obj [("entryId", .str "who-knows")]) =
      .ok ⟨[], Json.null⟩ ∧
    processEntry ⟨[], Json.null⟩ tombstoneEntryJ = .ok ⟨[], Json.null⟩ ∧
    runEntries ⟨[], Json.null⟩ [tombstoneEntryJ] = runEntries ⟨[], Json.null⟩ [] ∧
    processEntry ⟨[], Json.null⟩ malformedEntryJ = .error () ∧
    runEntries ⟨[], Json.null⟩ [malformedEntryJ, tweetEntryJ "1" "t1"] =
      (⟨[], Json.null⟩, true) :=
  ⟨rfl,
    entry_error_aborts_rest_of_page.1 ⟨[], Json.null⟩
      (.obj [("entryId", .str "who-knows")]) "who-knows" rfl rfl rfl,
    rfl,
    entry_error_aborts_rest_of_page.2.1 ⟨[], Json.null⟩ tombstoneEntryJ []
      ⟨[], Json.null⟩ rfl,
    rfl,
    entry_error_aborts_rest_of_page.2.2.1 ⟨[], Json.null⟩ malformedEntryJ
      [tweetEntryJ "1" "t1"] rfl⟩

/-! ## C8 -/

/-- A `tweet-` entry whose `legacy.full_text` is mistyped as a number. -/
def mistypedTweetEntryJ : Json :=
  .obj [("entryId", .str "tweet-9"),
        ("content", .obj [("itemContent", .obj [("tweet_results",
          .obj [("result", .obj [("__typename", .str "Tweet"), ("rest_id", .str "t9"),
                                 ("legacy", .obj [("full_text", .num 42)])])])])])]

/-- **C8 counterexample** — a mistyped leaf field does not degrade to a safe
default: a `full_text` of `42` is carried verbatim into the parsed record's
`text`, which equals none of the claimed safe defaults (empty string, false,
null). -/
theorem mistyped_leaf_field_passes_through :
    (parse_bookmarks_response (pageJ [mistypedTweetEntryJ])).1.map TweetData.text =
      [Json.num 42] ∧
    Json.num 42 ≠ Json.str "" ∧
    Json.num 42 ≠ Json.bool false ∧
    Json.num 42 ≠ Json.null :=
  ⟨rfl, fun h => Json.noConfusion h, fun h => Json.noConfusion h,
    fun h => Json.noConfusion h⟩

/-- **C8 amended** — `parse_bookmarks_response` returns for every input (the
internal raise is caught): whenever the header traversal cannot interpret
the document, the result is the empty record list with a null cursor (first
conjunct); absent substructures and fields degrade to safe defaults (second
conjunct: a minimal tweet entry yields `tdOf`, whose text/author fields are
empty strings, media flags 0, url null); mistyped leaf fields, however, are
passed through verbatim, and a mistyped container aborts the remainder of
the page as shown by the counterexamples. -/
theorem parse_never_raises_defaults :
    (∀ response : Json, parseHeader response = .error () →
      parse_bookmarks_response response = ([], Json.null)) ∧
    parse_bookmarks_response (pageJ [tweetEntryJ "1" "t1"]) =
      ([tdOf "t1"], Json.null) ∧
    (tdOf "t1").text = .str "" ∧
    (tdOf "t1").author_username = .str "" ∧
    (tdOf "t1").has_media_image = 0 ∧
    (tdOf "t1").has_media_video = 0 ∧
    (tdOf "t1").url = none := by
  refine ⟨?_, rfl, rfl, rfl, rfl, rfl, rfl⟩
  intro response h
  simp [parse_bookmarks_response, h]

/-- Witness for `parse_never_raises_defaults`: a document whose top level is
a bare string cannot be interpreted at all and yields `([], null)`. -/
theorem parse_never_raises_defaults_witness :
    parseHeader (Json.str "garbage") = .error () ∧
    parse_bookmarks_response (Json.str "garbage") = ([], Json.null) :=
  ⟨rfl, parse_never_raises_defaults.1 (Json.str "garbage") rfl⟩

/-! ## C9 -/

/-- **C9** — for every page step, `total_fetched` grows by the length of the
whole parsed page and `pages_fetched` by one, independently of the marker
(the counters are bumped before the record loop runs); concretely, in
`runTwoPages` the marker discards all of page 2 after zero of its records
are upserted, yet the summary reports `total_fetched = 3` across
`pages_fetched = 2` while only one bookmark was added. -/
theorem totals_include_discarded_records (marker : Option Json) (ssid : Nat)
    (times : Nat → String) (tweets : List TweetData) (nc0 : Json) (st : LoopState) :
    ((syncPage marker ssid times tweets nc0 st).1.total_fetched =
       st.total_fetched + tweets.length ∧
     (syncPage marker ssid times tweets nc0 st).1.pages_fetched =
       st.pages_fetched + 1) ∧
    runTwoPages.summaryOut = some
      { sync_started_at := "T0", sync_completed_at := "T2", pages_fetched := 2,
        total_fetched := 3, new_bookmarks := 1, updated_bookmarks := 0 } ∧
    runTwoPages.dbOut.tweets.map Tweet.tweet_id = [.str "m0", .str "a1"] := by
  refine ⟨⟨?_, ?_⟩, rfl, rfl⟩ <;> simp [syncPage]
